import Mathlib

/-!
Verification of the swap-compatibility scoring and suggestion engine of the
nurse-pro scheduling application, together with the shift-assignment
consistency rules and the swap workflow orchestrator it feeds.

The definitions below are shallow embeddings of the TypeScript source:

* `calculateCompatibility`, `getCompatibilityReasons`, `generateSuggestions`
  embed `src/components/SwapRequests/CreateSwapRequest.tsx` (the compatibility
  engine).  The JavaScript `Array.prototype.sort`, which is stable by the
  ECMAScript specification, is embedded as `List.insertionSort` with the
  descending comparator used by the source.
* `schemaValid` embeds the yup validation schema of the same component;
  `handleSubmitFlow` together with `createSwapRequestStore` embeds the
  submission path `handleSubmit(onSubmit)` plus
  `scheduleStore.createSwapRequest`.
* `applyEvent`/`runEvents` embed the form-session state of the component
  (`selectSuggestion`, manual form edits) that determines the `autoMatched`
  flag of the submitted payload.
* `handleDragEnd` embeds the drag-and-drop reassignment handler of
  `src/components/Schedule/ShiftForm.tsx`.
-/

/-- Shift types, `'Day' | 'Evening' | 'Night'` in `src/types/index.ts`. -/
inductive ShiftType where
  | Day
  | Evening
  | Night
deriving DecidableEq, Repr

/-- Experience levels, `'Junior' | 'Mid' | 'Senior' | 'Expert'`. -/
inductive ExperienceLevel where
  | Junior
  | Mid
  | Senior
  | Expert
deriving DecidableEq, Repr

/-- Calendar date (year/month/day).  `date-fns`' `isSameDay` only inspects
the calendar-day component of a `Date`, so the embedding keeps exactly that. -/
structure HDate where
  year : Int
  month : Int
  day : Int
deriving DecidableEq, Repr

/-- Function `isSameDay` from `date-fns`: two dates fall on the same calendar day. -/
def isSameDay (a b : HDate) : Prop :=
  a.year = b.year ∧ a.month = b.month ∧ a.day = b.day

instance (a b : HDate) : Decidable (isSameDay a b) :=
  inferInstanceAs (Decidable (_ ∧ _ ∧ _))

/-- Record `Nurse` from `src/types/index.ts` (fields consumed by the verified core). -/
structure Nurse where
  id : String
  firstName : String
  lastName : String
  department : String
  specializations : List String
  experienceLevel : ExperienceLevel
  preferredShifts : List ShiftType
deriving DecidableEq, Repr

/-- Record `Shift` from `src/types/index.ts` (fields consumed by the verified core). -/
structure Shift where
  id : String
  date : HDate
  startTime : String
  endTime : String
  type : ShiftType
  department : String
  requiredStaff : Nat
  assignedNurses : List String
deriving DecidableEq, Repr

/-- Record `SwapSuggestion` from `CreateSwapRequest.tsx`. -/
structure SwapSuggestion where
  nurse : Nurse
  shift : Option Shift
  compatibility : Int
  reasons : List String
deriving DecidableEq, Repr

/-- The lookup `experienceLevels.indexOf(...)` over
`['Junior', 'Mid', 'Senior', 'Expert']` in `calculateCompatibility`. -/
def experienceOrdinal : ExperienceLevel → Int
  | .Junior => 0
  | .Mid => 1
  | .Senior => 2
  | .Expert => 3

/-- The list `commonSpecs` of `calculateCompatibility`/`getCompatibilityReasons`:
`nurse1.specializations.filter(spec => nurse2.specializations.includes(spec))`. -/
def commonSpecs (nurse1 nurse2 : Nurse) : List String :=
  nurse1.specializations.filter (fun spec => decide (spec ∈ nurse2.specializations))

/-- Function `calculateCompatibility` from `CreateSwapRequest.tsx` lines 106-128. -/
def calculateCompatibility (nurse1 nurse2 : Nurse) (shift : Shift) : Int :=
  let deptScore : Int := if nurse1.department = nurse2.department then 30 else 0
  let shiftScore : Int := if shift.type ∈ nurse2.preferredShifts then 25 else 0
  let exp1 := experienceOrdinal nurse1.experienceLevel
  let exp2 := experienceOrdinal nurse2.experienceLevel
  let expScore : Int := max 0 (20 - |exp1 - exp2| * 5)
  let specScore : Int := (commonSpecs nurse1 nurse2).length * 5
  min 100 (deptScore + shiftScore + expScore + specScore)

/-- Function `getCompatibilityReasons` from `CreateSwapRequest.tsx` lines 130-149. -/
def getCompatibilityReasons (nurse1 nurse2 : Nurse) (shift : Shift) : List String :=
  (if nurse1.department = nurse2.department then ["Same department"] else []) ++
  (if shift.type ∈ nurse2.preferredShifts then ["Prefers this shift type"] else []) ++
  (if (commonSpecs nurse1 nurse2).length > 0 then
    ["Shared specializations: " ++ String.intercalate ", " (commonSpecs nurse1 nurse2)]
  else [])

/-- The eligibility filter of `generateSuggestions` (lines 73-77):
candidate id differs from the requester id, same department, and the
candidate prefers the source shift's type. -/
def eligibleNurses (nurses : List Nurse) (nurseId : String)
    (currentNurse : Nurse) (currentShift : Shift) : List Nurse :=
  nurses.filter (fun nurse => decide
    (nurse.id ≠ nurseId ∧ nurse.department = currentNurse.department ∧
      currentShift.type ∈ nurse.preferredShifts))

/-- The candidate-shift search of `generateSuggestions` (lines 81-85):
shifts the candidate is assigned to, on a different calendar day, whose type
the requester prefers. -/
def candidateShifts (shifts : List Shift) (nurse currentNurse : Nurse)
    (currentShift : Shift) : List Shift :=
  shifts.filter (fun shift => decide
    (nurse.id ∈ shift.assignedNurses ∧ ¬ isSameDay shift.date currentShift.date ∧
      shift.type ∈ currentNurse.preferredShifts))

/-- One element of the `suggestions` array built in `generateSuggestions`
(lines 79-96); `nurseShifts[0]` is the head of the filtered list. -/
def mkSuggestion (shifts : List Shift) (currentNurse : Nurse)
    (currentShift : Shift) (nurse : Nurse) : SwapSuggestion :=
  { nurse := nurse
    shift := (candidateShifts shifts nurse currentNurse currentShift).head?
    compatibility := calculateCompatibility currentNurse nurse currentShift
    reasons := getCompatibilityReasons currentNurse nurse currentShift }

/-- The `suggestions` array of `generateSuggestions` before sorting and
truncation, in nurse-pool encounter order. -/
def rawSuggestions (nurses : List Nurse) (shifts : List Shift) (nurseId : String)
    (currentNurse : Nurse) (currentShift : Shift) : List SwapSuggestion :=
  (eligibleNurses nurses nurseId currentNurse currentShift).map
    (mkSuggestion shifts currentNurse currentShift)

/-- The descending comparator `(a, b) => b.compatibility - a.compatibility`
used by `suggestions.sort` (line 99): `a` may stay before `b` iff
`b.compatibility ≤ a.compatibility`. -/
def suggLE (a b : SwapSuggestion) : Prop :=
  b.compatibility ≤ a.compatibility

instance : DecidableRel suggLE :=
  fun a b => inferInstanceAs (Decidable (b.compatibility ≤ a.compatibility))

instance : IsTotal SwapSuggestion suggLE :=
  ⟨fun a b => le_total b.compatibility a.compatibility⟩

instance : IsTrans SwapSuggestion suggLE :=
  ⟨fun _ _ _ hab hbc => le_trans hbc hab⟩

/-- Function `generateSuggestions` from `CreateSwapRequest.tsx` lines 72-101:
filter, score, sort descending (JavaScript `sort` is stable, embedded as a
stable insertion sort), and keep the top 5. -/
def generateSuggestions (nurses : List Nurse) (shifts : List Shift)
    (nurseId : String) (currentNurse : Nurse) (currentShift : Shift) :
    List SwapSuggestion :=
  (List.insertionSort suggLE
    (rawSuggestions nurses shifts nurseId currentNurse currentShift)).take 5

/-- Swap-request lifecycle status from `src/types/index.ts`. -/
inductive SwapStatus where
  | Pending
  | Approved
  | Rejected
deriving DecidableEq, Repr

/-- A created `SwapRequest` record (`src/types/index.ts`), as returned by the
persistence collaborator. -/
structure SwapRequest where
  id : String
  requesterId : String
  targetId : String
  shiftId : String
  targetShiftId : Option String
  reason : String
  status : SwapStatus
  autoMatched : Bool
deriving DecidableEq, Repr

/-- The outbound payload of `createSwapRequest`
(`Omit<SwapRequest, "id" | "createdAt" | "updatedAt">`). -/
structure SwapRequestPayload where
  requesterId : String
  targetId : String
  shiftId : String
  targetShiftId : Option String
  reason : String
  status : SwapStatus
  autoMatched : Bool
deriving DecidableEq, Repr

/-- The three fields registered with `useForm` in `CreateSwapRequest.tsx`
(`targetNurseId`, `reason`, `targetShiftId`; all default to `''`). -/
structure FormData where
  targetNurseId : String
  reason : String
  targetShiftId : String
deriving DecidableEq, Repr

/-- The yup `schema` of `CreateSwapRequest.tsx` lines 13-17:
`targetNurseId` is required (non-empty) and `reason` is required with a
minimum length of 10 characters; `targetShiftId` is optional. -/
def schemaValid (d : FormData) : Bool :=
  decide (d.targetNurseId ≠ "") && decide (10 ≤ d.reason.length)

/-- One entry handed to `addNotification`. -/
structure AppNotification where
  kind : String
  title : String
  message : String
deriving DecidableEq, Repr

/-- The slice of `useScheduleStore` state the submission path touches. -/
structure StoreState where
  swapRequests : List SwapRequest
  loadingErr : Option String
deriving DecidableEq, Repr

/-- Store action `scheduleStore.createSwapRequest` (`src/stores/scheduleStore.ts` lines
275-305): on success the created record is appended to `swapRequests`; on
failure the list is untouched, the error is recorded, an error notification
is emitted, and the error is re-thrown (`Bool` = thrown). -/
def createSwapRequestStore (store : StoreState)
    (response : Except String SwapRequest) :
    StoreState × List AppNotification × Bool :=
  match response with
  | .ok created =>
    ({ store with
        swapRequests := store.swapRequests ++ [created]
        loadingErr := none },
      [⟨"success", "Swap Request Created", "Successfully created swap request"⟩],
      false)
  | .error msg =>
    ({ store with loadingErr := some msg },
      [⟨"error", "Error Creating Swap Request", msg⟩],
      true)

/-- The payload built in `onSubmit` (`CreateSwapRequest.tsx` lines 153-161):
`targetShiftId: data.targetShiftId || undefined` and
`autoMatched: !!selectedSuggestion`. -/
def submitPayload (requesterId shiftId : String) (form : FormData)
    (selectedSuggestion : Option SwapSuggestion) : SwapRequestPayload :=
  { requesterId := requesterId
    targetId := form.targetNurseId
    shiftId := shiftId
    targetShiftId := if form.targetShiftId = "" then none else some form.targetShiftId
    reason := form.reason
    status := .Pending
    autoMatched := selectedSuggestion.isSome }

/-- Observable outcome of one submission attempt. -/
structure SubmitOutcome where
  store : StoreState
  form : FormData
  selectedSuggestion : Option SwapSuggestion
  notifications : List AppNotification
  successCalled : Bool
  networkCalled : Bool
  payloadSent : Option SwapRequestPayload
deriving DecidableEq, Repr

/-- Submission path `handleSubmit(onSubmit)`: the yup resolver gates `onSubmit`; a failing
validation produces inline errors and no network call.  `onSubmit`
(lines 151-177) awaits `createSwapRequest`; on failure it only adds the
"Please try again" notification — the form fields and the selected
suggestion are left untouched and `onSuccess` is not invoked. -/
def handleSubmitFlow (requesterId shiftId : String) (form : FormData)
    (selectedSuggestion : Option SwapSuggestion) (store : StoreState)
    (response : Except String SwapRequest) : SubmitOutcome :=
  if schemaValid form then
    let payload := submitPayload requesterId shiftId form selectedSuggestion
    match createSwapRequestStore store response with
    | (store2, notifs, true) =>
      { store := store2, form := form, selectedSuggestion := selectedSuggestion
        notifications := notifs ++
          [⟨"error", "Failed to submit request", "Please try again"⟩]
        successCalled := false, networkCalled := true
        payloadSent := some payload }
    | (store2, notifs, false) =>
      { store := store2, form := form, selectedSuggestion := selectedSuggestion
        notifications := notifs ++
          [⟨"success", "Swap request submitted",
            "Your request has been sent for approval"⟩]
        successCalled := true, networkCalled := true
        payloadSent := some payload }
  else
    { store := store, form := form, selectedSuggestion := selectedSuggestion
      notifications := [], successCalled := false, networkCalled := false
      payloadSent := none }

/-- The options of the "Select Nurse to Swap With" dropdown
(`CreateSwapRequest.tsx` lines 310-316): every nurse except the requester. -/
def targetNurseOptions (nurses : List Nurse) (nurseId : String) : List Nurse :=
  nurses.filter (fun nurse => decide (nurse.id ≠ nurseId))

/-- Session-level form events of `CreateSwapRequest.tsx`: clicking a
generated suggestion (`selectSuggestion`, lines 179-185) versus editing the
registered form fields manually. -/
inductive FormEvent where
  | clickSuggestion (s : SwapSuggestion)
  | setTargetManually (id : String)
  | setReason (r : String)
  | setTargetShift (id : String)
deriving DecidableEq, Repr

/-- In-progress component state: the form values plus the
`selectedSuggestion` React state. -/
structure SessionState where
  form : FormData
  selectedSuggestion : Option SwapSuggestion
deriving DecidableEq, Repr

/-- Effect of one form event.  `selectSuggestion` records the suggestion and
copies its nurse id (and shift id, when present) into the form; a manual
edit of a form field changes only that field — in particular it does NOT
clear `selectedSuggestion`. -/
def applyEvent (st : SessionState) : FormEvent → SessionState
  | .clickSuggestion s =>
    { st with
        selectedSuggestion := some s
        form := { st.form with
          targetNurseId := s.nurse.id
          targetShiftId :=
            match s.shift with
            | some sh => sh.id
            | none => st.form.targetShiftId } }
  | .setTargetManually id => { st with form := { st.form with targetNurseId := id } }
  | .setReason r => { st with form := { st.form with reason := r } }
  | .setTargetShift id => { st with form := { st.form with targetShiftId := id } }

/-- Fold a sequence of form events over a session state. -/
def runEvents (st : SessionState) (evs : List FormEvent) : SessionState :=
  evs.foldl applyEvent st

/-- The component's initial session: empty form, no suggestion selected. -/
def initialSession : SessionState :=
  { form := { targetNurseId := "", reason := "", targetShiftId := "" }
    selectedSuggestion := none }

/-- The store's `updateShift` as observed by `handleDragEnd`: the shift with
the given id gets the new `assignedNurses` list. -/
def updateShiftAssigned (shifts : List Shift) (shiftId : String)
    (newAssigned : List String) : List Shift :=
  shifts.map (fun s =>
    if s.id = shiftId then { s with assignedNurses := newAssigned } else s)

/-- First half of `handleDragEnd`: remove the dragged nurse from the source
shift (no-op when dragging from the `available` pool or when the source
shift is not found). -/
def removeStep (shifts : List Shift) (nurseId sourceShiftId : String) :
    List Shift :=
  if sourceShiftId = "available" then shifts
  else
    match shifts.find? (fun s => decide (s.id = sourceShiftId)) with
    | some sourceShift =>
      updateShiftAssigned shifts sourceShiftId
        (sourceShift.assignedNurses.filter (fun i => decide (i ≠ nurseId)))
    | none => shifts

/-- Second half of `handleDragEnd`: append the dragged nurse to the
destination shift's `assignedNurses`.  The destination shift is looked up in
the original `snapshot` (the captured `shifts`), and the append is
unconditional — there is no membership check. -/
def addStep (snapshot afterRemove : List Shift) (nurseId destShiftId : String) :
    List Shift :=
  if destShiftId = "available" then afterRemove
  else
    match snapshot.find? (fun s => decide (s.id = destShiftId)) with
    | some destShift =>
      updateShiftAssigned afterRemove destShiftId
        (destShift.assignedNurses ++ [nurseId])
    | none => afterRemove

/-- Handler `handleDragEnd` from `src/components/Schedule/ShiftForm.tsx` lines
1111-1154: when source and destination differ, the dragged nurse id is
filtered out of the source shift (unless dragged from the `available` pool)
and appended to the destination shift's `assignedNurses` (unless dropped on
the `available` pool).  Both lookups read the same `shifts` snapshot. -/
def handleDragEnd (shifts : List Shift) (nurseId sourceShiftId destShiftId : String) :
    List Shift :=
  if sourceShiftId = destShiftId then shifts
  else addStep shifts (removeStep shifts nurseId sourceShiftId) nurseId destShiftId

/-- C1: the compatibility score equals
min(100, 30·[same department] + 25·[shift type preferred by candidate]
 + max(0, 20 − |requesterOrdinal − candidateOrdinal|·5)
 + 5·(number of shared specializations)), with ordinals Junior=0, Mid=1,
Senior=2, Expert=3; the score is an integer in [0, 100]; and the Scenario 1
inputs (equal Senior levels, same department, preferred shift type, 2 shared
specializations) yield exactly 85. -/
theorem calculateCompatibility_matches_spec_formula (n1 n2 : Nurse) (s : Shift) :
    calculateCompatibility n1 n2 s =
      min 100 ((if n1.department = n2.department then (30 : Int) else 0)
        + (if s.type ∈ n2.preferredShifts then (25 : Int) else 0)
        + max 0 (20 - |experienceOrdinal n1.experienceLevel -
            experienceOrdinal n2.experienceLevel| * 5)
        + 5 * ((commonSpecs n1 n2).length : Int))
    ∧ 0 ≤ calculateCompatibility n1 n2 s
    ∧ calculateCompatibility n1 n2 s ≤ 100
    ∧ (n1.experienceLevel = .Senior → n2.experienceLevel = .Senior →
        n1.department = n2.department → s.type ∈ n2.preferredShifts →
        (commonSpecs n1 n2).length = 2 →
        calculateCompatibility n1 n2 s = 85) := by
  refine ⟨?_, ?_, ?_, ?_⟩
  · simp only [calculateCompatibility, Int.abs_eq_natAbs]
    split <;> split <;> omega
  · simp only [calculateCompatibility, Int.abs_eq_natAbs]
    split <;> split <;> omega
  · simp only [calculateCompatibility, Int.abs_eq_natAbs]
    split <;> split <;> omega
  · intro h1 h2 h3 h4 h5
    simp only [calculateCompatibility, h1, h2, h3, h4, h5, experienceOrdinal,
      if_pos, if_true]
    norm_num

/-- Witness for C1's Scenario 1 conjunct at a concrete instance. -/
def nurseAlice : Nurse :=
  { id := "n1", firstName := "Alice", lastName := "Stone", department := "ICU"
    specializations := ["Cardiology", "Trauma"]
    experienceLevel := .Senior, preferredShifts := [.Day, .Night] }

/-- A second concrete nurse: same department, Senior, prefers Day shifts,
shares the two specializations of `nurseAlice`. -/
def nurseBella : Nurse :=
  { id := "n2", firstName := "Bella", lastName := "Reyes", department := "ICU"
    specializations := ["Cardiology", "Trauma", "Pediatrics"]
    experienceLevel := .Senior, preferredShifts := [.Day] }

/-- A concrete Day shift in the ICU on 2024-03-11, assigned to `nurseAlice`. -/
def shiftMorning : Shift :=
  { id := "s1", date := ⟨2024, 3, 11⟩, startTime := "07:00", endTime := "15:00"
    type := .Day, department := "ICU", requiredStaff := 2
    assignedNurses := ["n1"] }

/-- Scenario 1 at the concrete instance: the score is exactly 85. -/
theorem calculateCompatibility_scenario1_witness :
    calculateCompatibility nurseAlice nurseBella shiftMorning = 85 :=
  (calculateCompatibility_matches_spec_formula nurseAlice nurseBella
    shiftMorning).2.2.2 rfl rfl rfl (by decide) (by decide)

/-- Unpacking membership in the eligibility filter. -/
theorem mem_eligibleNurses {nurses : List Nurse} {nurseId : String}
    {currentNurse nurse : Nurse} {currentShift : Shift}
    (hn : nurse ∈ eligibleNurses nurses nurseId currentNurse currentShift) :
    nurse ∈ nurses ∧ nurse.id ≠ nurseId ∧
      nurse.department = currentNurse.department ∧
      currentShift.type ∈ nurse.preferredShifts := by
  simpa [eligibleNurses, List.mem_filter, decide_eq_true_eq, and_assoc] using hn

/-- Every emitted suggestion comes from an eligible nurse via `mkSuggestion`. -/
theorem exists_eligible_of_mem_generateSuggestions {nurses : List Nurse}
    {shifts : List Shift} {nurseId : String} {currentNurse : Nurse}
    {currentShift : Shift} {s : SwapSuggestion}
    (h : s ∈ generateSuggestions nurses shifts nurseId currentNurse currentShift) :
    ∃ nurse, nurse ∈ eligibleNurses nurses nurseId currentNurse currentShift ∧
      s = mkSuggestion shifts currentNurse currentShift nurse := by
  unfold generateSuggestions at h
  have h2 := List.take_subset 5 _ h
  rw [List.mem_insertionSort] at h2
  unfold rawSuggestions at h2
  rw [List.mem_map] at h2
  obtain ⟨nurse, hn, hs⟩ := h2
  exact ⟨nurse, hn, hs.symm⟩

/-- C2: a nurse appears among the generated suggestions only if its id
differs from the requester's, its department equals the requester's, and the
source shift's type is among its preferred shifts; a nurse failing any of
the three conditions never appears. -/
theorem generateSuggestions_only_eligible (nurses : List Nurse)
    (shifts : List Shift) (nurseId : String) (currentNurse : Nurse)
    (currentShift : Shift) (hid : currentNurse.id = nurseId) :
    ∀ s ∈ generateSuggestions nurses shifts nurseId currentNurse currentShift,
      s.nurse.id ≠ currentNurse.id ∧
      s.nurse.department = currentNurse.department ∧
      currentShift.type ∈ s.nurse.preferredShifts := by
  intro s hs
  obtain ⟨nurse, hn, rfl⟩ := exists_eligible_of_mem_generateSuggestions hs
  obtain ⟨-, hne, hdep, hpref⟩ := mem_eligibleNurses hn
  exact ⟨by simpa [mkSuggestion, hid] using hne, by simpa [mkSuggestion] using hdep,
    by simpa [mkSuggestion] using hpref⟩

/-- The single suggestion generated for `nurseBella` in the concrete pool. -/
def suggBella : SwapSuggestion :=
  mkSuggestion [shiftMorning] nurseAlice shiftMorning nurseBella

/-- Witness for C2 at the concrete pool: the emitted suggestion for
`nurseBella` satisfies all three eligibility conditions. -/
theorem generateSuggestions_only_eligible_witness :
    suggBella.nurse.id ≠ nurseAlice.id ∧
    suggBella.nurse.department = nurseAlice.department ∧
    shiftMorning.type ∈ suggBella.nurse.preferredShifts :=
  generateSuggestions_only_eligible [nurseAlice, nurseBella] [shiftMorning]
    "n1" nurseAlice shiftMorning rfl suggBella (by decide)

/-- The experience ordinal is between 0 and 3. -/
theorem experienceOrdinal_bounds (e : ExperienceLevel) :
    0 ≤ experienceOrdinal e ∧ experienceOrdinal e ≤ 3 := by
  cases e <;> simp [experienceOrdinal]

/-- Post-filter lower bound on the score: same department and preferred
shift type guarantee 30 + 25 + an experience term of at least 5. -/
theorem calculateCompatibility_ge_60 {n1 n2 : Nurse} {s : Shift}
    (h1 : n1.department = n2.department) (h2 : s.type ∈ n2.preferredShifts) :
    60 ≤ calculateCompatibility n1 n2 s := by
  obtain ⟨ha, hb⟩ := experienceOrdinal_bounds n1.experienceLevel
  obtain ⟨hc, hd⟩ := experienceOrdinal_bounds n2.experienceLevel
  simp only [calculateCompatibility, Int.abs_eq_natAbs, if_pos h1, if_pos h2]
  omega

/-- C10: every emitted suggestion scores at least 60 and its reasons list is
non-empty, beginning with "Same department" then "Prefers this shift type". -/
theorem generateSuggestions_score_and_reasons (nurses : List Nurse)
    (shifts : List Shift) (nurseId : String) (currentNurse : Nurse)
    (currentShift : Shift) :
    ∀ s ∈ generateSuggestions nurses shifts nurseId currentNurse currentShift,
      60 ≤ s.compatibility ∧ s.reasons ≠ [] ∧
      s.reasons.take 2 = ["Same department", "Prefers this shift type"] := by
  intro s hs
  obtain ⟨nurse, hn, rfl⟩ := exists_eligible_of_mem_generateSuggestions hs
  obtain ⟨-, -, hdep, hpref⟩ := mem_eligibleNurses hn
  refine ⟨?_, ?_, ?_⟩
  · simpa [mkSuggestion] using calculateCompatibility_ge_60 hdep.symm hpref
  · simp only [mkSuggestion, getCompatibilityReasons, if_pos hdep.symm, if_pos hpref]
    split <;> simp
  · simp only [mkSuggestion, getCompatibilityReasons, if_pos hdep.symm, if_pos hpref]
    split <;> simp

/-- Witness for C10 at the concrete pool. -/
theorem generateSuggestions_score_and_reasons_witness :
    60 ≤ suggBella.compatibility ∧ suggBella.reasons ≠ [] ∧
    suggBella.reasons.take 2 = ["Same department", "Prefers this shift type"] :=
  generateSuggestions_score_and_reasons [nurseAlice, nurseBella] [shiftMorning]
    "n1" nurseAlice shiftMorning suggBella (by decide)

/-- Inserting into a list places the new element ahead of exactly the
strictly higher-scoring elements, so each score class keeps its order. -/
theorem filter_score_orderedInsert (v : Int) (a : SwapSuggestion)
    (l : List SwapSuggestion) :
    (List.orderedInsert suggLE a l).filter (fun s => decide (s.compatibility = v)) =
      if a.compatibility = v
      then a :: l.filter (fun s => decide (s.compatibility = v))
      else l.filter (fun s => decide (s.compatibility = v)) := by
  induction l with
  | nil =>
    by_cases ha : a.compatibility = v <;>
      simp [List.orderedInsert, List.filter, ha]
  | cons b t ih =>
    simp only [List.orderedInsert]
    by_cases hab : suggLE a b
    · rw [if_pos hab]
      by_cases ha : a.compatibility = v <;> by_cases hb : b.compatibility = v <;>
        simp [List.filter_cons, ha, hb]
    · rw [if_neg hab]
      simp only [suggLE, not_le] at hab
      by_cases ha : a.compatibility = v <;> by_cases hb : b.compatibility = v
      · exfalso; omega
      · simp [List.filter_cons, ha, hb, ih]
      · simp [List.filter_cons, ha, hb, ih]
      · simp [List.filter_cons, ha, hb, ih]

/-- Stability of the embedded sort: each score class of the sorted list is
exactly the score class of the input, in input order. -/
theorem filter_score_insertionSort (v : Int) (l : List SwapSuggestion) :
    (List.insertionSort suggLE l).filter (fun s => decide (s.compatibility = v)) =
      l.filter (fun s => decide (s.compatibility = v)) := by
  induction l with
  | nil => rfl
  | cons a t ih =>
    simp only [List.insertionSort]
    rw [filter_score_orderedInsert]
    by_cases ha : a.compatibility = v <;> simp [List.filter_cons, ha, ih]

/-- C3: the suggestion list has length at most 5, is sorted by score in
non-increasing order, and equals the first five entries of a stable
descending sort of the raw suggestions — suggestions with equal scores keep
their input-encounter order (each score class of the sorted list equals the
corresponding score class of the raw, encounter-ordered list). -/
theorem generateSuggestions_ranking (nurses : List Nurse) (shifts : List Shift)
    (nurseId : String) (currentNurse : Nurse) (currentShift : Shift) :
    (generateSuggestions nurses shifts nurseId currentNurse currentShift).length ≤ 5
    ∧ List.Sorted suggLE
        (generateSuggestions nurses shifts nurseId currentNurse currentShift)
    ∧ generateSuggestions nurses shifts nurseId currentNurse currentShift =
        (List.insertionSort suggLE
          (rawSuggestions nurses shifts nurseId currentNurse currentShift)).take 5
    ∧ ∀ v : Int,
        (List.insertionSort suggLE
            (rawSuggestions nurses shifts nurseId currentNurse currentShift)).filter
          (fun s => decide (s.compatibility = v)) =
        (rawSuggestions nurses shifts nurseId currentNurse currentShift).filter
          (fun s => decide (s.compatibility = v)) := by
  refine ⟨?_, ?_, rfl, fun v => filter_score_insertionSort v _⟩
  · exact List.length_take_le 5 _
  · exact (List.sorted_insertionSort suggLE _).sublist (List.take_sublist 5 _)

/-- The head of a filtered list is the first element satisfying the
predicate, in the original order. -/
theorem head_filter_eq_find (p : Shift → Bool) (l : List Shift) :
    (l.filter p).head? = l.find? p := by
  induction l with
  | nil => rfl
  | cons a t ih =>
    by_cases h : p a <;> simp [List.filter_cons, List.find?_cons, h, ih]

/-- C8: each emitted suggestion's optional candidate shift is the first
shift, in shift-pool order, that lists the candidate among its assigned
nurses, is not on the source shift's calendar day, and whose type the
requester prefers; and an eligible candidate appears among the raw
suggestions even when no such shift exists (the field is then `none`). -/
theorem suggestion_shift_first_match (nurses : List Nurse) (shifts : List Shift)
    (nurseId : String) (currentNurse : Nurse) (currentShift : Shift) :
    (∀ s ∈ generateSuggestions nurses shifts nurseId currentNurse currentShift,
      s.shift = shifts.find? (fun sh => decide
        (s.nurse.id ∈ sh.assignedNurses ∧ ¬ isSameDay sh.date currentShift.date ∧
          sh.type ∈ currentNurse.preferredShifts)))
    ∧ ∀ nurse ∈ eligibleNurses nurses nurseId currentNurse currentShift,
        mkSuggestion shifts currentNurse currentShift nurse ∈
          rawSuggestions nurses shifts nurseId currentNurse currentShift := by
  constructor
  · intro s hs
    obtain ⟨nurse, _, rfl⟩ := exists_eligible_of_mem_generateSuggestions hs
    simp only [mkSuggestion, candidateShifts]
    exact head_filter_eq_find _ shifts
  · intro nurse hn
    exact List.mem_map_of_mem _ hn

/-- Witness for C8 at the concrete pool: `nurseBella` has no assigned shift
at all, so the suggestion's candidate shift is the (empty) first match and
the candidate still appears among the raw suggestions. -/
theorem suggestion_shift_first_match_witness :
    suggBella.shift = [shiftMorning].find? (fun sh => decide
      (suggBella.nurse.id ∈ sh.assignedNurses ∧
        ¬ isSameDay sh.date shiftMorning.date ∧
        sh.type ∈ nurseAlice.preferredShifts))
    ∧ mkSuggestion [shiftMorning] nurseAlice shiftMorning nurseBella ∈
        rawSuggestions [nurseAlice, nurseBella] [shiftMorning] "n1"
          nurseAlice shiftMorning :=
  ⟨(suggestion_shift_first_match [nurseAlice, nurseBella] [shiftMorning] "n1"
      nurseAlice shiftMorning).1 suggBella (by decide),
    (suggestion_shift_first_match [nurseAlice, nurseBella] [shiftMorning] "n1"
      nurseAlice shiftMorning).2 nurseBella (by decide)⟩

/-- The network call is made exactly when the yup schema accepts the form. -/
theorem networkCalled_eq_schemaValid (requesterId shiftId : String)
    (form : FormData) (sel : Option SwapSuggestion) (store : StoreState)
    (resp : Except String SwapRequest) :
    (handleSubmitFlow requesterId shiftId form sel store resp).networkCalled =
      schemaValid form := by
  by_cases h : schemaValid form
  · cases resp <;> simp [handleSubmitFlow, createSwapRequestStore, h]
  · simp only [Bool.not_eq_true] at h
    simp [handleSubmitFlow, h]

/-- The schema rejects exactly short reasons or an empty target. -/
theorem schemaValid_eq_false_iff (d : FormData) :
    schemaValid d = false ↔ d.reason.length < 10 ∨ d.targetNurseId = "" := by
  simp only [schemaValid, Bool.and_eq_false_iff, decide_eq_false_iff_not, not_not,
    not_le]
  tauto

/-- C7: a submission is rejected before any network call exactly when the
reason has fewer than 10 characters or the target nurse id is empty; a
9-character reason is rejected and a 10-character reason (with a non-empty
target) is accepted. -/
theorem validation_boundary (requesterId shiftId : String) (d : FormData)
    (sel : Option SwapSuggestion) (store : StoreState)
    (resp : Except String SwapRequest) :
    ((handleSubmitFlow requesterId shiftId d sel store resp).networkCalled = false ↔
      d.reason.length < 10 ∨ d.targetNurseId = "")
    ∧ (d.reason.length = 9 →
        (handleSubmitFlow requesterId shiftId d sel store resp).networkCalled = false)
    ∧ (d.reason.length = 10 → d.targetNurseId ≠ "" →
        (handleSubmitFlow requesterId shiftId d sel store resp).networkCalled = true) := by
  rw [networkCalled_eq_schemaValid]
  refine ⟨by rw [← schemaValid_eq_false_iff], ?_, ?_⟩
  · intro h9
    rw [schemaValid_eq_false_iff]
    omega
  · intro h10 hne
    simp [schemaValid, hne]
    omega

/-- Witness for C7: a 9-character reason is rejected before the network
call; a 10-character reason with a non-empty target is accepted. -/
theorem validation_boundary_witness :
    (handleSubmitFlow "n1" "s1" ⟨"n2", "too short", ""⟩ none
      ⟨[], none⟩ (.error "down")).networkCalled = false
    ∧ (handleSubmitFlow "n1" "s1" ⟨"n2", "because ok", ""⟩ none
      ⟨[], none⟩ (.error "down")).networkCalled = true :=
  ⟨(validation_boundary "n1" "s1" ⟨"n2", "too short", ""⟩ none
      ⟨[], none⟩ (.error "down")).2.1 (by decide),
    (validation_boundary "n1" "s1" ⟨"n2", "because ok", ""⟩ none
      ⟨[], none⟩ (.error "down")).2.2 (by decide) (by decide)⟩

/-- C4 counterexample: a submission whose chosen target equals the
requester's id ("n1") passes the pre-submission validation and the network
call IS made — the schema never compares target and requester. -/
theorem selfSwap_reaches_network_counterexample :
    (handleSubmitFlow "n1" "s1" ⟨"n1", "family emergency swap", ""⟩ none
      ⟨[], none⟩ (.error "down")).networkCalled = true := by
  decide

/-- C4 (amended): the self-swap invariant is enforced only by the
target-nurse dropdown, whose options exclude the requester; the schema
validation itself lets any non-empty target with a long-enough reason
through to the network call, even one equal to the requester's id. -/
theorem selfSwap_excluded_only_from_options :
    (∀ (nurses : List Nurse) (nurseId : String),
      ∀ n ∈ targetNurseOptions nurses nurseId, n.id ≠ nurseId)
    ∧ ∀ (requesterId shiftId : String) (form : FormData)
        (sel : Option SwapSuggestion) (store : StoreState)
        (resp : Except String SwapRequest),
        schemaValid form = true →
        (handleSubmitFlow requesterId shiftId form sel store resp).networkCalled =
          true := by
  constructor
  · intro nurses nurseId n hn
    simp only [targetNurseOptions, List.mem_filter, decide_eq_true_eq] at hn
    exact hn.2
  · intro requesterId shiftId form sel store resp h
    rw [networkCalled_eq_schemaValid, h]

/-- Witness for the amended C4: the requester is excluded from a concrete
option list, while a self-targeted but schema-valid form still reaches the
network call. -/
theorem selfSwap_excluded_only_from_options_witness :
    nurseAlice.id ≠ "n2"
    ∧ (handleSubmitFlow "n1" "s1" ⟨"n1", "family emergency swap", ""⟩ none
      ⟨[], none⟩ (.error "down")).networkCalled = true :=
  ⟨selfSwap_excluded_only_from_options.1 [nurseAlice] "n2" nurseAlice (by decide),
    selfSwap_excluded_only_from_options.2 "n1" "s1"
      ⟨"n1", "family emergency swap", ""⟩ none ⟨[], none⟩ (.error "down")
      (by decide)⟩

/-- State `selectedSuggestion` is set by clicking a suggestion and never cleared:
after any event sequence it is non-null iff some suggestion was clicked. -/
theorem selectedSuggestion_isSome_runEvents (st : SessionState)
    (evs : List FormEvent) :
    (runEvents st evs).selectedSuggestion.isSome = true ↔
      st.selectedSuggestion.isSome = true ∨
        ∃ s, FormEvent.clickSuggestion s ∈ evs := by
  induction evs generalizing st with
  | nil => simp [runEvents]
  | cons e t ih =>
    have hstep : runEvents st (e :: t) = runEvents (applyEvent st e) t := rfl
    rw [hstep, ih]
    cases e with
    | clickSuggestion s => simp [applyEvent]
    | setTargetManually id => simp [applyEvent]
    | setReason r => simp [applyEvent]
    | setTargetShift id => simp [applyEvent]

/-- C5 counterexample: clicking a suggestion and then manually changing the
target nurse still submits `autoMatched = true`, because
`selectedSuggestion` is never cleared — even though the submitted
`targetNurseId` ("n3") was entered manually. -/
theorem autoMatched_after_manual_edit_counterexample :
    (submitPayload "n1" "s1"
        (runEvents initialSession
          [.clickSuggestion suggBella, .setTargetManually "n3"]).form
        (runEvents initialSession
          [.clickSuggestion suggBella, .setTargetManually "n3"]).selectedSuggestion).autoMatched
      = true
    ∧ (runEvents initialSession
        [.clickSuggestion suggBella, .setTargetManually "n3"]).form.targetNurseId
      = "n3" := by
  constructor <;> rfl

/-- C5 (amended): the submitted `autoMatched` flag is true iff at least one
generated suggestion was clicked at some point in the session, regardless of
whether the submitted `targetNurseId` was subsequently entered manually. -/
theorem autoMatched_iff_suggestion_clicked (requesterId shiftId : String)
    (evs : List FormEvent) :
    (submitPayload requesterId shiftId (runEvents initialSession evs).form
        (runEvents initialSession evs).selectedSuggestion).autoMatched = true ↔
      ∃ s, FormEvent.clickSuggestion s ∈ evs := by
  have h := selectedSuggestion_isSome_runEvents initialSession evs
  simp only [initialSession, Option.isSome_none, Bool.false_eq_true, false_or] at h
  simpa [submitPayload] using h

/-- C6: when the persistence call fails, no swap request is appended to the
store, the in-progress form fields and the clicked-suggestion state are
preserved for retry, `onSuccess` is not invoked, and the retryable
"Please try again" error notification is surfaced. -/
theorem submit_failure_leaves_draft (requesterId shiftId : String)
    (form : FormData) (sel : Option SwapSuggestion) (store : StoreState)
    (msg : String) (hv : schemaValid form = true) :
    (handleSubmitFlow requesterId shiftId form sel store
        (.error msg)).store.swapRequests = store.swapRequests
    ∧ (handleSubmitFlow requesterId shiftId form sel store (.error msg)).form = form
    ∧ (handleSubmitFlow requesterId shiftId form sel store
        (.error msg)).selectedSuggestion = sel
    ∧ (handleSubmitFlow requesterId shiftId form sel store
        (.error msg)).successCalled = false
    ∧ (⟨"error", "Failed to submit request", "Please try again"⟩ : AppNotification) ∈
        (handleSubmitFlow requesterId shiftId form sel store
          (.error msg)).notifications := by
  simp [handleSubmitFlow, createSwapRequestStore, hv]

/-- Witness for C6 at a concrete failing submission. -/
theorem submit_failure_leaves_draft_witness :
    (handleSubmitFlow "n1" "s1" ⟨"n2", "family emergency swap", ""⟩
        (some suggBella) ⟨[], none⟩ (.error "network down")).store.swapRequests = []
    ∧ (handleSubmitFlow "n1" "s1" ⟨"n2", "family emergency swap", ""⟩
        (some suggBella) ⟨[], none⟩ (.error "network down")).form =
        ⟨"n2", "family emergency swap", ""⟩
    ∧ (handleSubmitFlow "n1" "s1" ⟨"n2", "family emergency swap", ""⟩
        (some suggBella) ⟨[], none⟩ (.error "network down")).selectedSuggestion =
        some suggBella
    ∧ (handleSubmitFlow "n1" "s1" ⟨"n2", "family emergency swap", ""⟩
        (some suggBella) ⟨[], none⟩ (.error "network down")).successCalled = false
    ∧ (⟨"error", "Failed to submit request", "Please try again"⟩ : AppNotification) ∈
        (handleSubmitFlow "n1" "s1" ⟨"n2", "family emergency swap", ""⟩
          (some suggBella) ⟨[], none⟩ (.error "network down")).notifications :=
  submit_failure_leaves_draft "n1" "s1" ⟨"n2", "family emergency swap", ""⟩
    (some suggBella) ⟨[], none⟩ "network down" (by decide)

/-- Replacing a shift's assignment list with a duplicate-free one keeps
every assignment list duplicate-free. -/
theorem nodup_of_mem_updateShiftAssigned {shifts : List Shift} {sid : String}
    {newL : List String} (h1 : ∀ s ∈ shifts, s.assignedNurses.Nodup)
    (hL : newL.Nodup) :
    ∀ s ∈ updateShiftAssigned shifts sid newL, s.assignedNurses.Nodup := by
  intro s hs
  rw [updateShiftAssigned, List.mem_map] at hs
  obtain ⟨t, ht, rfl⟩ := hs
  by_cases hid : t.id = sid
  · simpa [hid] using hL
  · simpa [hid] using h1 t ht

/-- The removal half of `handleDragEnd` keeps assignment lists
duplicate-free. -/
theorem removeStep_nodup {shifts : List Shift} {nurseId src : String}
    (h1 : ∀ s ∈ shifts, s.assignedNurses.Nodup) :
    ∀ s ∈ removeStep shifts nurseId src, s.assignedNurses.Nodup := by
  intro s hs
  rw [removeStep] at hs
  split at hs
  · exact h1 s hs
  · split at hs
    · rename_i sourceShift hfind
      exact nodup_of_mem_updateShiftAssigned h1
        ((h1 sourceShift (List.mem_of_find?_eq_some hfind)).filter _) s hs
    · exact h1 s hs

/-- The append half of `handleDragEnd` keeps assignment lists duplicate-free
provided the dragged nurse is not already on the destination shift. -/
theorem addStep_nodup {snapshot afterRemove : List Shift}
    {nurseId dst : String}
    (h1 : ∀ s ∈ snapshot, s.assignedNurses.Nodup)
    (h2 : ∀ s ∈ snapshot, s.id = dst → nurseId ∉ s.assignedNurses)
    (hafter : ∀ s ∈ afterRemove, s.assignedNurses.Nodup) :
    ∀ s ∈ addStep snapshot afterRemove nurseId dst, s.assignedNurses.Nodup := by
  intro s hs
  rw [addStep] at hs
  split at hs
  · exact hafter s hs
  · split at hs
    · rename_i destShift hfind
      have hdmem := List.mem_of_find?_eq_some hfind
      have hdid : destShift.id = dst := by
        simpa using List.find?_some hfind
      have hnd : (destShift.assignedNurses ++ [nurseId]).Nodup := by
        simp [List.nodup_append, h1 destShift hdmem, h2 destShift hdmem hdid]
      exact nodup_of_mem_updateShiftAssigned hafter hnd s hs
    · exact hafter s hs

/-- A second shift record for the drag-and-drop scenarios, on the next day,
also listing nurse "n1". -/
def shiftAlpha : Shift :=
  { id := "A", date := ⟨2024, 3, 11⟩, startTime := "07:00", endTime := "15:00"
    type := .Day, department := "ICU", requiredStaff := 1
    assignedNurses := ["n1"] }

/-- A shift with id "B" also listing nurse "n1". -/
def shiftBeta : Shift :=
  { id := "B", date := ⟨2024, 3, 12⟩, startTime := "07:00", endTime := "15:00"
    type := .Day, department := "ICU", requiredStaff := 1
    assignedNurses := ["n1"] }

/-- A shift with id "B" listing only nurse "n2". -/
def shiftGamma : Shift :=
  { id := "B", date := ⟨2024, 3, 12⟩, startTime := "07:00", endTime := "15:00"
    type := .Day, department := "ICU", requiredStaff := 1
    assignedNurses := ["n2"] }

/-- C9 counterexample: starting from duplicate-free shifts in which nurse
"n1" is assigned to both "A" and "B", dragging "n1" from "A" to "B" appends
unconditionally and produces the duplicated list ["n1", "n1"] on "B". -/
theorem handleDragEnd_duplicate_counterexample :
    (∀ s ∈ [shiftAlpha, shiftBeta], s.assignedNurses.Nodup)
    ∧ ¬ (∀ s ∈ handleDragEnd [shiftAlpha, shiftBeta] "n1" "A" "B",
        s.assignedNurses.Nodup) := by
  constructor
  · decide
  · decide

/-- C9 (amended): `handleDragEnd` appends the dragged nurse to the
destination unconditionally; it preserves the per-shift no-duplicate
invariant exactly under the additional precondition that the dragged nurse
is not already in the destination shift's `assignedNurses` (which holds
whenever a nurse is assigned to at most one shift). -/
theorem handleDragEnd_preserves_nodup (shifts : List Shift)
    (nurseId src dst : String)
    (h1 : ∀ s ∈ shifts, s.assignedNurses.Nodup)
    (h2 : ∀ s ∈ shifts, s.id = dst → nurseId ∉ s.assignedNurses) :
    ∀ s ∈ handleDragEnd shifts nurseId src dst, s.assignedNurses.Nodup := by
  intro s hs
  rw [handleDragEnd] at hs
  split at hs
  · exact h1 s hs
  · exact addStep_nodup h1 h2 (removeStep_nodup h1) s hs

/-- The destination shift after the witness drag: "n1" joins "n2". -/
def shiftGammaAfter : Shift :=
  { shiftGamma with assignedNurses := ["n2", "n1"] }

/-- Witness for the amended C9: dragging "n1" from "A" to "B" when "B" does
not yet contain "n1" leaves every assignment list duplicate-free. -/
theorem handleDragEnd_preserves_nodup_witness :
    shiftGammaAfter.assignedNurses.Nodup :=
  handleDragEnd_preserves_nodup [shiftAlpha, shiftGamma] "n1" "A" "B"
    (by decide) (by decide) shiftGammaAfter (by decide)
